import Mathlib

/-!
Verification of the CryptoBuddy recommendation and classification engine
(repository Vosty17/Cypo). The engine exists in two revisions:
src/crypto_bot.py (the later, larger revision) and src/Chatbott.py (the
earlier revision). Both hold a catalog of coin records (an insertion-ordered
Python dict from coin name to a record dict) and derive trend lists,
sustainability rankings and risk-profile recommendations from it.

The embedding below renders each relevant Python function as a Lean
function over explicit catalog values. Python dicts are modelled as
association lists in insertion order; Python dynamic typing of the
market_cap field (category string in the shipped catalogs, possibly a
number in caller-supplied data) is modelled by an inductive type, with
the Python equality between a number and a string being false.
-/

namespace Cypo

/-- A value of the market_cap field. Python is dynamically typed: both
shipped catalogs store a category string ("high", "medium", "low"), but a
record built elsewhere may hold a numeric USD value. -/
inductive MarketCap where
  | cat (s : String)
  | num (usd : ℚ)
deriving DecidableEq

/-- Python equality `market_cap == s` for a string literal `s`: string
values compare by equality, a numeric value is never equal to a string. -/
def MarketCap.eqStr : MarketCap → String → Bool
  | .cat t, s => t == s
  | .num _, _ => false

/-- One coin record of the crypto_db dict. Fields are those of
crypto_bot.py lines 22-57; the Chatbott.py records simply leave
symbol and description empty. -/
structure CoinData where
  symbol : String
  price_trend : String
  market_cap : MarketCap
  energy_use : String
  sustainability_score : ℚ
  current_price : ℚ
  description : String
deriving DecidableEq

/-- The crypto_db dict: a Python dict preserves insertion order, so it is
modelled as an association list from coin name to record. -/
abbrev Catalog := List (String × CoinData)

/-- Python `str.lower()`: lowercase every character. Modelled character by
character over the string data (structurally recursive, unlike the library
String.toLower, so that concrete instances reduce in the kernel). -/
def strLower (s : String) : String :=
  ⟨s.data.map Char.toLower⟩

/-- Python `str.strip()`: drop whitespace from both ends. -/
def strTrim (s : String) : String :=
  ⟨((s.data.dropWhile Char.isWhitespace).reverse.dropWhile Char.isWhitespace).reverse⟩

/-- Python truthiness of `self.deepseek_api_key`, the result of
`os.getenv("DEEPSEEK_API_KEY")`: falsy when the variable is unset (None)
or set to the empty string. -/
def keyMissing : Option String → Bool
  | none => true
  | some s => s == ""

/-- A parsed JSON body returned by the chat-completion endpoint: the
message contents of the choices array, and the optional top-level
output field. -/
structure AIResponse where
  choices : List String
  output : Option String

/-- Outcome of the HTTP POST to the AI endpoint, as observed by the
calling code: a parsed body, a requests.RequestException, or any other
exception. -/
inductive NetOutcome where
  | ok (r : AIResponse)
  | requestError (msg : String)
  | otherError (msg : String)

namespace CryptoBot

/-- `analyze_trends` of src/crypto_bot.py lines 113-116: the coins whose
price_trend is in ["rising", "volatile"], in catalog order. -/
def analyze_trends (db : Catalog) : List String :=
  (db.filter (fun p => decide (p.2.price_trend ∈ (["rising", "volatile"] : List String)))).map
    Prod.fst

/-- The list comprehension of `get_sustainable_coins`
(crypto_bot.py line 121, Chatbott.py line 82): each coin name paired with
its sustainability_score. -/
def scored (db : Catalog) : List (String × ℚ) :=
  db.map (fun p => (p.1, p.2.sustainability_score))

/-- The comparison realising `sorted(..., key=lambda x: x[1], reverse=True)`:
x may precede y exactly when the key of y is at most the key of x. -/
def sustLE (x y : String × ℚ) : Bool :=
  decide (y.2 ≤ x.2)

/-- `get_sustainable_coins` (crypto_bot.py lines 118-125; Chatbott.py
lines 79-86 are the identical code): the scored list sorted by score
descending. Python sorted is a stable sort, and with reverse=True ties
keep input order; this is a stable merge sort on the reversed key
comparison. -/
def get_sustainable_coins (db : Catalog) : List (String × ℚ) :=
  (scored db).mergeSort sustLE

/-- The branch dispatch of `recommend_investment` (crypto_bot.py lines
131-140), applied to the already lowercased profile string `rp`:
conservative keeps coins with market_cap == "high", aggressive keeps
coins with price_trend == "rising", and every other string takes the
moderate branch, keeping coins with price_trend in ["rising", "stable"]
and market_cap in ["high", "medium"]. -/
def recommendBranch (db : Catalog) (rp : String) : List String :=
  if rp = "conservative" then
    (db.filter (fun p => p.2.market_cap.eqStr "high")).map Prod.fst
  else if rp = "aggressive" then
    (db.filter (fun p => p.2.price_trend == "rising")).map Prod.fst
  else
    (db.filter (fun p =>
      (p.2.price_trend == "rising" || p.2.price_trend == "stable") &&
      (p.2.market_cap.eqStr "high" || p.2.market_cap.eqStr "medium"))).map Prod.fst

/-- `recommend_investment` of src/crypto_bot.py lines 127-140: the line
`risk_profile = risk_profile.lower()` lowercases the profile (it does not
trim whitespace), then the if/elif/else chain dispatches on it. -/
def recommend_investment (db : Catalog) (risk_profile : String) : List String :=
  recommendBranch db (strLower risk_profile)

/-- `get_ai_insight` of src/crypto_bot.py lines 76-111. With a falsy key
it returns its sentinel without touching the network; otherwise it makes
exactly one POST and folds every response shape or exception into a
string. The second component counts the POST requests performed. -/
def get_ai_insight (key : Option String) (net : String → NetOutcome) (question : String) :
    String × Nat :=
  if keyMissing key then ("🔒 API key not configured - using simulated insights", 0)
  else
    (match net question with
     | .ok r =>
       match r.choices with
       | c :: _ => c
       | [] =>
         match r.output with
         | some o => o
         | none => "⚠️ Received unexpected API response format"
     | .requestError e => "🌐 Network error: " ++ e
     | .otherError e => "❌ Unexpected error: " ++ e, 1)

/-- The Bitcoin record of `_initialize_crypto_db` (crypto_bot.py lines
22-30), with the current price supplied by the price oracle
(`self._get_live_price("bitcoin")`). -/
def bitcoinData (price : String → ℚ) : CoinData :=
  { symbol := "BTC", price_trend := "rising", market_cap := .cat "high",
    energy_use := "high", sustainability_score := (3 : ℚ) / 10,
    current_price := price "bitcoin",
    description := "The first and most well-known cryptocurrency using Proof-of-Work" }

/-- The Ethereum record of `_initialize_crypto_db` (crypto_bot.py lines 31-39). -/
def ethereumData (price : String → ℚ) : CoinData :=
  { symbol := "ETH", price_trend := "stable", market_cap := .cat "high",
    energy_use := "medium", sustainability_score := (6 : ℚ) / 10,
    current_price := price "ethereum",
    description := "Smart contract platform that transitioned to Proof-of-Stake" }

/-- The Cardano record of `_initialize_crypto_db` (crypto_bot.py lines 40-48). -/
def cardanoData (price : String → ℚ) : CoinData :=
  { symbol := "ADA", price_trend := "rising", market_cap := .cat "medium",
    energy_use := "low", sustainability_score := (8 : ℚ) / 10,
    current_price := price "cardano",
    description := "Proof-of-Stake blockchain focused on sustainability" }

/-- The Solana record of `_initialize_crypto_db` (crypto_bot.py lines 49-57). -/
def solanaData (price : String → ℚ) : CoinData :=
  { symbol := "SOL", price_trend := "volatile", market_cap := .cat "medium",
    energy_use := "medium", sustainability_score := (5 : ℚ) / 10,
    current_price := price "solana",
    description := "High-performance blockchain with hybrid consensus model" }

/-- The catalog value built by `_initialize_crypto_db` (crypto_bot.py
lines 19-58): the four records in source order, each with its price pulled
from the oracle. -/
def initCryptoDb (price : String → ℚ) : Catalog :=
  [("Bitcoin", bitcoinData price), ("Ethereum", ethereumData price),
   ("Cardano", cardanoData price), ("Solana", solanaData price)]

/-- The heap of record objects: Python dict values are references into a
store of record objects; `next` is the next fresh address. A dict literal
allocates fresh objects, and `self.crypto_db = ...` only rebinds the
attribute, leaving previously allocated objects untouched. -/
structure Heap where
  store : Nat → CoinData
  next : Nat

/-- `_initialize_crypto_db` at the heap level: the dict literal of
crypto_bot.py lines 21-58 allocates four fresh record objects and yields
the name-to-address table together with the extended heap. -/
def initCryptoDbH (price : String → ℚ) (h : Heap) : List (String × Nat) × Heap :=
  ([("Bitcoin", h.next), ("Ethereum", h.next + 1),
    ("Cardano", h.next + 2), ("Solana", h.next + 3)],
   { next := h.next + 4,
     store := fun a =>
       if a = h.next then bitcoinData price
       else if a = h.next + 1 then ethereumData price
       else if a = h.next + 2 then cardanoData price
       else if a = h.next + 3 then solanaData price
       else h.store a })

/-- The mutable state of a CryptoBuddy instance relevant to refresh:
the crypto_db attribute (name-to-address table), the heap of record
objects, and the last_updated timestamp string. -/
structure BotState where
  db : List (String × Nat)
  heap : Heap
  last_updated : Option String

/-- `refresh_data` of src/crypto_bot.py lines 142-146: rebinds
`self.crypto_db` to a freshly built record set (allocating new record
objects, never writing into old ones) and stamps `self.last_updated`. -/
def refresh_data (s : BotState) (price : String → ℚ) (now : String) : BotState :=
  let p := initCryptoDbH price s.heap
  { db := p.1, heap := p.2, last_updated := some now }

end CryptoBot

namespace Chatbott

/-- `_get_live_price` of src/Chatbott.py lines 37-47:
`mock_prices.get(coin_id, 0)` over the three-entry dict, a total lookup
returning 0 when the id has no entry. -/
def get_live_price (coin_id : String) : ℚ :=
  (([("bitcoin", (6743218 : ℚ) / 100), ("ethereum", (328745 : ℚ) / 100),
     ("cardano", (45 : ℚ) / 100)] : List (String × ℚ)).lookup coin_id).getD 0

/-- `analyze_trends` of src/Chatbott.py lines 74-77: only coins whose
price_trend equals "rising" (volatile is not selected in this revision). -/
def analyze_trends (db : Catalog) : List String :=
  (db.filter (fun p => p.2.price_trend == "rising")).map Prod.fst

/-- The local variable `profitable` of `recommend_investment`
(src/Chatbott.py lines 90-94): coins with rising trend and market_cap in
["high", "medium"]. -/
def profitable (db : Catalog) : List String :=
  (db.filter (fun p =>
    p.2.price_trend == "rising" &&
    (p.2.market_cap.eqStr "high" || p.2.market_cap.eqStr "medium"))).map Prod.fst

/-- `recommend_investment` of src/Chatbott.py lines 88-95:
`return profitable or list(self.crypto_db.keys())` — an empty list is
falsy in Python, so an empty filter result falls back to all keys. -/
def recommend_investment (db : Catalog) : List String :=
  if (profitable db).isEmpty then db.map Prod.fst else profitable db

/-- `get_ai_insight` of src/Chatbott.py lines 49-72. With a falsy key it
returns the sentinel without touching the network; otherwise it makes one
POST and reads choices[0].message.content, with the blanket except
clause turning any failure (here: a missing choices entry or a transport
error) into an error string. The second component counts POST requests. -/
def get_ai_insight (key : Option String) (net : String → NetOutcome) (question : String) :
    String × Nat :=
  if keyMissing key then ("API key not configured", 0)
  else
    (match net question with
     | .ok r =>
       match r.choices with
       | c :: _ => c
       | [] => "AI service error: choices"
     | .requestError e => "AI service error: " ++ e
     | .otherError e => "AI service error: " ++ e, 1)

end Chatbott

/-! Concrete data used by witnesses and counterexamples. -/

/-- A concrete price oracle pricing every id at 10 USD. -/
def tenOracle : String → ℚ := fun _ => 10

/-- The shipped crypto_bot.py catalog under the concrete oracle. -/
def exDb : Catalog := CryptoBot.initCryptoDb tenOracle

/-- A record with volatile trend, as Solana has in crypto_bot.py. -/
def volatileCoin : CoinData :=
  { symbol := "SOL", price_trend := "volatile", market_cap := .cat "medium",
    energy_use := "medium", sustainability_score := 1, current_price := 1,
    description := "" }

/-- A one-record catalog whose only coin is volatile. -/
def exDb1 : Catalog := [("Solana", volatileCoin)]

/-- Asset A of the C3 example: numeric market cap 1.3e12 USD. -/
def coinA3 : CoinData :=
  { symbol := "A", price_trend := "stable", market_cap := .num 1300000000000,
    energy_use := "low", sustainability_score := 1, current_price := 1,
    description := "" }

/-- Asset B of the C3 example: numeric market cap 15e9 USD. -/
def coinB3 : CoinData :=
  { symbol := "B", price_trend := "stable", market_cap := .num 15000000000,
    energy_use := "low", sustainability_score := 1, current_price := 1,
    description := "" }

/-- The C3 example catalog: A at 1.3e12 USD cap, B at 15e9 USD cap. -/
def exDb3 : Catalog := [("A", coinA3), ("B", coinB3)]

/-- Asset A of the C4 example: rising, numeric market cap 60e9 USD. -/
def coinA4 : CoinData :=
  { symbol := "A", price_trend := "rising", market_cap := .num 60000000000,
    energy_use := "low", sustainability_score := 1, current_price := 1,
    description := "" }

/-- Asset B of the C4 example: rising, numeric market cap 20e9 USD. -/
def coinB4 : CoinData :=
  { symbol := "B", price_trend := "rising", market_cap := .num 20000000000,
    energy_use := "low", sustainability_score := 1, current_price := 1,
    description := "" }

/-- The C4 example catalog. -/
def exDb4 : Catalog := [("A", coinA4), ("B", coinB4)]

/-- A concrete bot state for the refresh witness: one record at address 0,
next fresh address 1. -/
def exState : CryptoBot.BotState :=
  { db := [("Bitcoin", 0)],
    heap := { store := fun _ => CryptoBot.bitcoinData tenOracle, next := 1 },
    last_updated := none }

/-! Helper lemmas shared by several claims. -/

/-- Python equality of a market_cap value against a string literal holds
exactly when the value is that category string. -/
theorem MarketCap.eqStr_iff (mc : MarketCap) (s : String) :
    mc.eqStr s = true ↔ mc = .cat s := by
  cases mc <;> simp [MarketCap.eqStr]

/-- The conservative branch of `recommend_investment`. -/
theorem recommendBranch_conservative (db : Catalog) :
    CryptoBot.recommendBranch db "conservative"
      = (db.filter (fun p => p.2.market_cap.eqStr "high")).map Prod.fst := rfl

/-- The aggressive branch of `recommend_investment`. -/
theorem recommendBranch_aggressive (db : Catalog) :
    CryptoBot.recommendBranch db "aggressive"
      = (db.filter (fun p => p.2.price_trend == "rising")).map Prod.fst := by
  unfold CryptoBot.recommendBranch
  rw [if_neg (by decide), if_pos rfl]

/-- Every profile other than conservative and aggressive takes the
moderate branch. -/
theorem recommendBranch_moderate (db : Catalog) (rp : String)
    (h1 : rp ≠ "conservative") (h2 : rp ≠ "aggressive") :
    CryptoBot.recommendBranch db rp
      = (db.filter (fun p =>
          (p.2.price_trend == "rising" || p.2.price_trend == "stable") &&
          (p.2.market_cap.eqStr "high" || p.2.market_cap.eqStr "medium"))).map Prod.fst := by
  unfold CryptoBot.recommendBranch
  rw [if_neg h1, if_neg h2]

/-- Lowercasing the concrete string "conservative" is the identity. -/
theorem strLower_conservative : strLower "conservative" = "conservative" := by decide

/-- Lowercasing the concrete string "aggressive" is the identity. -/
theorem strLower_aggressive : strLower "aggressive" = "aggressive" := by decide

/-- Lowercasing the concrete string "moderate" is the identity. -/
theorem strLower_moderate : strLower "moderate" = "moderate" := by decide

/-! Claim C1. -/

/-- C1 counterexample: the claim reads `analyze_trends` as selecting
trend in the set containing rising and volatile and cites both revisions,
but `analyze_trends` of src/Chatbott.py line 77 tests price_trend ==
"rising" only: on a catalog whose single record is volatile it returns
the empty list, omitting that record. -/
theorem c1_counterexample :
    volatileCoin.price_trend = "volatile" ∧
    ("Solana", volatileCoin) ∈ exDb1 ∧
    Chatbott.analyze_trends exDb1 = [] := by
  refine ⟨rfl, List.mem_cons_self _ _, rfl⟩

/-- C1 amended: in src/crypto_bot.py, `analyze_trends` returns exactly
the coins whose price_trend is rising or volatile (sound and complete);
in the earlier revision src/Chatbott.py it returns exactly the coins
whose price_trend is rising, so volatile records are omitted there. -/
theorem c1_trending_exact (db : Catalog) :
    (∀ c ∈ CryptoBot.analyze_trends db,
        ∃ d, (c, d) ∈ db ∧ (d.price_trend = "rising" ∨ d.price_trend = "volatile")) ∧
    (∀ c d, (c, d) ∈ db → (d.price_trend = "rising" ∨ d.price_trend = "volatile") →
        c ∈ CryptoBot.analyze_trends db) ∧
    (∀ c ∈ Chatbott.analyze_trends db,
        ∃ d, (c, d) ∈ db ∧ d.price_trend = "rising") ∧
    (∀ c d, (c, d) ∈ db → d.price_trend = "rising" →
        c ∈ Chatbott.analyze_trends db) := by
  refine ⟨?_, ?_, ?_, ?_⟩
  · intro c hc
    simp only [CryptoBot.analyze_trends, List.mem_map, List.mem_filter,
      decide_eq_true_eq, List.mem_cons, List.not_mem_nil, or_false] at hc
    obtain ⟨⟨a, d⟩, ⟨hmem, hcond⟩, rfl⟩ := hc
    exact ⟨d, hmem, hcond⟩
  · intro c d hmem hcond
    simp only [CryptoBot.analyze_trends, List.mem_map, List.mem_filter]
    exact ⟨(c, d), ⟨hmem, by simp [hcond]⟩, rfl⟩
  · intro c hc
    simp only [Chatbott.analyze_trends, List.mem_map, List.mem_filter, beq_iff_eq] at hc
    obtain ⟨⟨a, d⟩, ⟨hmem, hcond⟩, rfl⟩ := hc
    exact ⟨d, hmem, hcond⟩
  · intro c d hmem hcond
    simp only [Chatbott.analyze_trends, List.mem_map, List.mem_filter, beq_iff_eq]
    exact ⟨(c, d), ⟨hmem, hcond⟩, rfl⟩

/-- C1 witness: Cardano is rising in the shipped catalog, so the
completeness direction puts it in the crypto_bot.py trending list. -/
theorem c1_witness : "Cardano" ∈ CryptoBot.analyze_trends exDb :=
  (c1_trending_exact exDb).2.1 "Cardano" (CryptoBot.cardanoData tenOracle)
    (by unfold exDb CryptoBot.initCryptoDb
        exact List.mem_cons_of_mem _ (List.mem_cons_of_mem _ (List.mem_cons_self _ _)))
    (Or.inl rfl)

/-! Claim C3. -/

/-- C3 counterexample: the conservative branch (crypto_bot.py line 133)
tests market_cap == "high", a category string; a numeric market cap is
never equal to a string in Python, so on the catalog of the claim
(A at 1.3e12 USD, B at 15e9 USD) the result is empty, not the set
containing A, even though the cap of A exceeds 100e9. -/
theorem c3_counterexample :
    coinA3.market_cap = .num 1300000000000 ∧
    (1300000000000 : ℚ) > 100000000000 ∧
    CryptoBot.recommend_investment exDb3 "conservative" = [] := by
  exact ⟨rfl, by decide, by decide⟩

/-- C3 amended: `recommend_investment` with profile conservative returns
exactly the coins whose market_cap field is the category string "high";
numeric market caps never qualify (whatever their size) and the trend is
ignored. -/
theorem c3_conservative_exact (db : Catalog) :
    (∀ c ∈ CryptoBot.recommend_investment db "conservative",
        ∃ d, (c, d) ∈ db ∧ d.market_cap = .cat "high") ∧
    (∀ c d, (c, d) ∈ db → d.market_cap = .cat "high" →
        c ∈ CryptoBot.recommend_investment db "conservative") := by
  have hb : CryptoBot.recommend_investment db "conservative"
      = (db.filter (fun p => p.2.market_cap.eqStr "high")).map Prod.fst := by
    unfold CryptoBot.recommend_investment
    rw [strLower_conservative, recommendBranch_conservative]
  rw [hb]
  constructor
  · intro c hc
    simp only [List.mem_map, List.mem_filter] at hc
    obtain ⟨⟨a, d⟩, ⟨hmem, hcond⟩, rfl⟩ := hc
    exact ⟨d, hmem, (MarketCap.eqStr_iff _ _).mp hcond⟩
  · intro c d hmem hcond
    simp only [List.mem_map, List.mem_filter]
    exact ⟨(c, d), ⟨hmem, (MarketCap.eqStr_iff _ _).mpr hcond⟩, rfl⟩

/-- C3 witness: Bitcoin has category market cap "high" in the shipped
catalog, so the completeness direction recommends it conservatively. -/
theorem c3_witness : "Bitcoin" ∈ CryptoBot.recommend_investment exDb "conservative" :=
  (c3_conservative_exact exDb).2 "Bitcoin" (CryptoBot.bitcoinData tenOracle)
    (List.mem_cons_self _ _) rfl

/-! Claim C4. -/

/-- C4 counterexample: the aggressive branch (crypto_bot.py line 136)
tests price_trend == "rising" only and never consults market_cap, so on
the catalog of the claim (A rising at 60e9 USD, B rising at 20e9 USD)
both coins are returned, not B only. -/
theorem c4_counterexample :
    coinA4.price_trend = "rising" ∧
    coinA4.market_cap = .num 60000000000 ∧
    ¬ ((60000000000 : ℚ) < 50000000000) ∧
    CryptoBot.recommend_investment exDb4 "aggressive" = ["A", "B"] := by
  exact ⟨rfl, rfl, by decide, by decide⟩

/-- C4 amended: `recommend_investment` with profile aggressive returns
exactly the coins whose price_trend is "rising"; there is no market-cap
condition in this branch. -/
theorem c4_aggressive_exact (db : Catalog) :
    (∀ c ∈ CryptoBot.recommend_investment db "aggressive",
        ∃ d, (c, d) ∈ db ∧ d.price_trend = "rising") ∧
    (∀ c d, (c, d) ∈ db → d.price_trend = "rising" →
        c ∈ CryptoBot.recommend_investment db "aggressive") := by
  have hb : CryptoBot.recommend_investment db "aggressive"
      = (db.filter (fun p => p.2.price_trend == "rising")).map Prod.fst := by
    unfold CryptoBot.recommend_investment
    rw [strLower_aggressive, recommendBranch_aggressive]
  rw [hb]
  constructor
  · intro c hc
    simp only [List.mem_map, List.mem_filter, beq_iff_eq] at hc
    obtain ⟨⟨a, d⟩, ⟨hmem, hcond⟩, rfl⟩ := hc
    exact ⟨d, hmem, hcond⟩
  · intro c d hmem hcond
    simp only [List.mem_map, List.mem_filter, beq_iff_eq]
    exact ⟨(c, d), ⟨hmem, hcond⟩, rfl⟩

/-- C4 witness: Cardano is rising in the shipped catalog, so the
completeness direction recommends it aggressively. -/
theorem c4_witness : "Cardano" ∈ CryptoBot.recommend_investment exDb "aggressive" :=
  (c4_aggressive_exact exDb).2 "Cardano" (CryptoBot.cardanoData tenOracle)
    (by unfold exDb CryptoBot.initCryptoDb
        exact List.mem_cons_of_mem _ (List.mem_cons_of_mem _ (List.mem_cons_self _ _)))
    rfl

/-! Claim C5. -/

/-- C5: any profile string that is not recognized as conservative,
moderate or aggressive even after lowercasing and trimming makes
`recommend_investment` behave exactly as with profile "moderate". The
code only lowercases (it never trims), but a string that lowercases to
one of the three keywords is untouched by trimming, so unrecognized
after lower-and-trim implies unrecognized by the code, which then takes
the else (moderate) branch. -/
theorem c5_unknown_profile_is_moderate (db : Catalog) (rp : String)
    (h : strTrim (strLower rp) ∉ (["conservative", "moderate", "aggressive"] : List String)) :
    CryptoBot.recommend_investment db rp = CryptoBot.recommend_investment db "moderate" := by
  have hc : strLower rp ≠ "conservative" := by
    intro he; exact h (by rw [he]; decide)
  have ha : strLower rp ≠ "aggressive" := by
    intro he; exact h (by rw [he]; decide)
  unfold CryptoBot.recommend_investment
  rw [strLower_moderate, recommendBranch_moderate db (strLower rp) hc ha,
    recommendBranch_moderate db "moderate" (by decide) (by decide)]

/-- C5 witness at the unrecognized profile string of the spec example. -/
theorem c5_witness :
    strTrim (strLower "unknownprofile") ∉ (["conservative", "moderate", "aggressive"] : List String) ∧
    CryptoBot.recommend_investment exDb "unknownprofile"
      = CryptoBot.recommend_investment exDb "moderate" :=
  ⟨by decide, c5_unknown_profile_is_moderate exDb "unknownprofile" (by decide)⟩

/-! Claim C9. -/

/-- C9: in the earlier revision src/Chatbott.py, `recommend_investment`
never returns an empty list on a non-empty catalog, and whenever the
rising high-or-medium-cap filter selects nothing it returns the full key
list of the catalog. -/
theorem c9_fallback_nonempty (db : Catalog) (hne : db ≠ []) :
    Chatbott.recommend_investment db ≠ [] ∧
    (Chatbott.profitable db = [] → Chatbott.recommend_investment db = db.map Prod.fst) := by
  constructor
  · unfold Chatbott.recommend_investment
    split
    · intro hmap
      exact hne (List.map_eq_nil_iff.mp hmap)
    · rename_i hprof
      intro hnil
      rw [hnil] at hprof
      exact hprof rfl
  · intro hp
    unfold Chatbott.recommend_investment
    rw [hp]
    rfl

/-- C9 witness: on the one-record volatile catalog the filter selects
nothing, so the fallback returns the full key list (which is non-empty). -/
theorem c9_witness :
    exDb1 ≠ [] ∧
    (Chatbott.recommend_investment exDb1 ≠ [] ∧
      (Chatbott.profitable exDb1 = [] → Chatbott.recommend_investment exDb1 = exDb1.map Prod.fst)) :=
  ⟨by decide, c9_fallback_nonempty exDb1 (by decide)⟩

/-! Claim C10. -/

/-- C10: for every catalog and profile string, `recommend_investment` of
src/crypto_bot.py returns a subsequence of the catalog keys in catalog
insertion order (each branch is a filter of the key sequence), and the
result is duplicate-free whenever the key sequence is (as it always is
for a Python dict). -/
theorem c10_recommend_subsequence (db : Catalog) (rp : String)
    (hnd : (db.map Prod.fst).Nodup) :
    List.Sublist (CryptoBot.recommend_investment db rp) (db.map Prod.fst) ∧
    (CryptoBot.recommend_investment db rp).Nodup := by
  have hsub : List.Sublist (CryptoBot.recommend_investment db rp) (db.map Prod.fst) := by
    unfold CryptoBot.recommend_investment CryptoBot.recommendBranch
    split
    · exact List.Sublist.map Prod.fst (List.filter_sublist db)
    · split
      · exact List.Sublist.map Prod.fst (List.filter_sublist db)
      · exact List.Sublist.map Prod.fst (List.filter_sublist db)
  exact ⟨hsub, List.Nodup.sublist hsub hnd⟩

/-- C10 witness at the shipped catalog and a profile with surrounding
whitespace (which the code does not trim, hence the moderate branch). -/
theorem c10_witness :
    ((exDb.map Prod.fst).Nodup) ∧
    (List.Sublist (CryptoBot.recommend_investment exDb " Aggressive ") (exDb.map Prod.fst) ∧
      (CryptoBot.recommend_investment exDb " Aggressive ").Nodup) :=
  ⟨by decide, c10_recommend_subsequence exDb " Aggressive " (by decide)⟩

/-! Claim C6. -/

/-- C6: in the working revision src/Chatbott.py, `_get_live_price` is a
total dictionary lookup with default 0: an id with no oracle entry yields
price 0 rather than an error. In src/crypto_bot.py the same function is
the site of the code bug: its mock_prices dict literal (lines 66-69) has
an unterminated parenthesis in every value expression, so that module is
a SyntaxError and the function can never return at all. -/
theorem c6_price_oracle_default (coin_id : String)
    (h : coin_id ∉ (["bitcoin", "ethereum", "cardano"] : List String)) :
    Chatbott.get_live_price coin_id = 0 := by
  simp only [List.mem_cons, List.not_mem_nil, or_false, not_or] at h
  obtain ⟨h1, h2, h3⟩ := h
  have b1 : (coin_id == "bitcoin") = false := beq_eq_false_iff_ne.mpr h1
  have b2 : (coin_id == "ethereum") = false := beq_eq_false_iff_ne.mpr h2
  have b3 : (coin_id == "cardano") = false := beq_eq_false_iff_ne.mpr h3
  simp [Chatbott.get_live_price, List.lookup, b1, b2, b3]

/-- C6 witness: solana has no entry in the Chatbott.py price dict. -/
theorem c6_witness :
    "solana" ∉ (["bitcoin", "ethereum", "cardano"] : List String) ∧
    Chatbott.get_live_price "solana" = 0 :=
  ⟨by decide, c6_price_oracle_default "solana" (by decide)⟩

/-! Claim C7. -/

/-- C7 counterexample: with no credential configured, `get_ai_insight` of
src/crypto_bot.py line 80 returns its decorated sentinel, which is not
the exact string "API key not configured" the claim requires (only the
earlier revision src/Chatbott.py line 52 returns that exact string); the
network is indeed not called (request count 0). -/
theorem c7_counterexample :
    CryptoBot.get_ai_insight none (fun _ => .ok ⟨[], none⟩) "What is Bitcoin?"
      = ("🔒 API key not configured - using simulated insights", 0) ∧
    "🔒 API key not configured - using simulated insights" ≠ "API key not configured" := by
  exact ⟨rfl, by decide⟩

/-- C7 amended: with a falsy credential (unset or empty), each revision
returns its own fixed sentinel — "API key not configured" in
src/Chatbott.py, "🔒 API key not configured - using simulated insights"
in src/crypto_bot.py — and performs zero network requests in both. -/
theorem c7_no_key_sentinel (key : Option String) (net : String → NetOutcome) (q : String)
    (h : keyMissing key = true) :
    Chatbott.get_ai_insight key net q = ("API key not configured", 0) ∧
    CryptoBot.get_ai_insight key net q
      = ("🔒 API key not configured - using simulated insights", 0) := by
  unfold Chatbott.get_ai_insight CryptoBot.get_ai_insight
  rw [if_pos h, if_pos h]
  exact ⟨rfl, rfl⟩

/-- C7 witness with an unset credential and a network stub. -/
theorem c7_witness :
    keyMissing none = true ∧
    (Chatbott.get_ai_insight none (fun _ => .ok ⟨[], none⟩) "What is Bitcoin?"
        = ("API key not configured", 0) ∧
      CryptoBot.get_ai_insight none (fun _ => .ok ⟨[], none⟩) "What is Bitcoin?"
        = ("🔒 API key not configured - using simulated insights", 0)) :=
  ⟨rfl, c7_no_key_sentinel none (fun _ => .ok ⟨[], none⟩) "What is Bitcoin?" rfl⟩

/-! Claim C8. -/

/-- C8: `refresh_data` replaces the record set instead of mutating it:
every address allocated before the refresh keeps its stored record (in
particular its current_price), the catalog afterwards maps its keys to
freshly derived records (the catalog of `_initialize_crypto_db` under the
oracle), every address it holds is fresh, and the refresh timestamp is
stamped. -/
theorem c8_refresh_replaces (s : CryptoBot.BotState) (price : String → ℚ) (now : String)
    (a : Nat) (ha : a < s.heap.next) :
    (CryptoBot.refresh_data s price now).heap.store a = s.heap.store a ∧
    ((CryptoBot.refresh_data s price now).heap.store a).current_price
        = (s.heap.store a).current_price ∧
    ((CryptoBot.refresh_data s price now).db.map
        (fun q => (q.1, (CryptoBot.refresh_data s price now).heap.store q.2)))
      = CryptoBot.initCryptoDb price ∧
    (∀ q ∈ (CryptoBot.refresh_data s price now).db, s.heap.next ≤ q.2) ∧
    (CryptoBot.refresh_data s price now).last_updated = some now := by
  have hstore : (CryptoBot.refresh_data s price now).heap.store a = s.heap.store a := by
    simp only [CryptoBot.refresh_data, CryptoBot.initCryptoDbH]
    rw [if_neg (by omega), if_neg (by omega), if_neg (by omega), if_neg (by omega)]
  refine ⟨hstore, by rw [hstore], ?_, ?_, rfl⟩
  · simp [CryptoBot.refresh_data, CryptoBot.initCryptoDbH, CryptoBot.initCryptoDb,
      show s.heap.next + 1 ≠ s.heap.next by omega,
      show s.heap.next + 2 ≠ s.heap.next by omega,
      show s.heap.next + 2 ≠ s.heap.next + 1 by omega,
      show s.heap.next + 3 ≠ s.heap.next by omega,
      show s.heap.next + 3 ≠ s.heap.next + 1 by omega,
      show s.heap.next + 3 ≠ s.heap.next + 2 by omega]
  · intro q hq
    simp only [CryptoBot.refresh_data, CryptoBot.initCryptoDbH, List.mem_cons,
      List.not_mem_nil, or_false] at hq
    rcases hq with rfl | rfl | rfl | rfl <;> omega

/-- C8 witness at a concrete one-record state. -/
theorem c8_witness :
    0 < exState.heap.next ∧
    ((CryptoBot.refresh_data exState tenOracle "2024-01-01").heap.store 0
        = exState.heap.store 0 ∧
      ((CryptoBot.refresh_data exState tenOracle "2024-01-01").heap.store 0).current_price
        = (exState.heap.store 0).current_price ∧
      ((CryptoBot.refresh_data exState tenOracle "2024-01-01").db.map
          (fun q => (q.1, (CryptoBot.refresh_data exState tenOracle "2024-01-01").heap.store q.2)))
        = CryptoBot.initCryptoDb tenOracle ∧
      (∀ q ∈ (CryptoBot.refresh_data exState tenOracle "2024-01-01").db,
        exState.heap.next ≤ q.2) ∧
      (CryptoBot.refresh_data exState tenOracle "2024-01-01").last_updated = some "2024-01-01") :=
  ⟨by decide, c8_refresh_replaces exState tenOracle "2024-01-01" 0 (by decide)⟩

/-! Claim C2. -/

/-- The reversed score comparison is transitive. -/
theorem sustLE_trans :
    ∀ (a b c : String × ℚ), CryptoBot.sustLE a b = true → CryptoBot.sustLE b c = true →
      CryptoBot.sustLE a c = true := by
  intro a b c hab hbc
  simp only [CryptoBot.sustLE, decide_eq_true_eq] at hab hbc ⊢
  exact le_trans hbc hab

/-- The reversed score comparison is total. -/
theorem sustLE_total :
    ∀ (a b : String × ℚ), (CryptoBot.sustLE a b || CryptoBot.sustLE b a) = true := by
  intro a b
  simp only [CryptoBot.sustLE, Bool.or_eq_true, decide_eq_true_eq]
  exact le_total b.2 a.2

/-- C2: `get_sustainable_coins` returns every coin paired with its score
(a permutation of the scored catalog), sorted so that scores descend, and
stably: for each score value, the coins carrying that score appear
exactly as they do in the catalog (insertion order). -/
theorem c2_sustainability_ranking (db : Catalog) :
    List.Perm (CryptoBot.get_sustainable_coins db) (CryptoBot.scored db) ∧
    (CryptoBot.get_sustainable_coins db).Pairwise (fun x y => y.2 ≤ x.2) ∧
    (∀ s : ℚ, (CryptoBot.get_sustainable_coins db).filter (fun p => decide (p.2 = s))
        = (CryptoBot.scored db).filter (fun p => decide (p.2 = s))) := by
  unfold CryptoBot.get_sustainable_coins
  refine ⟨List.mergeSort_perm _ _, ?_, ?_⟩
  · exact (List.sorted_mergeSort sustLE_trans sustLE_total (CryptoBot.scored db)).imp
      (fun hab => by simpa [CryptoBot.sustLE] using hab)
  · intro s
    have hpw : ((CryptoBot.scored db).filter (fun p => decide (p.2 = s))).Pairwise
        (fun a b => CryptoBot.sustLE a b = true) := by
      apply List.pairwise_of_forall_mem_list
      intro a ha b hb
      have ha2 : a.2 = s := by simpa using (List.mem_filter.mp ha).2
      have hb2 : b.2 = s := by simpa using (List.mem_filter.mp hb).2
      simp [CryptoBot.sustLE, ha2, hb2]
    have hsubl : List.Sublist ((CryptoBot.scored db).filter (fun p => decide (p.2 = s)))
        ((CryptoBot.scored db).mergeSort CryptoBot.sustLE) :=
      List.sublist_mergeSort sustLE_trans sustLE_total hpw
        (List.filter_sublist (CryptoBot.scored db))
    have hself : ((CryptoBot.scored db).filter (fun p => decide (p.2 = s))).filter
        (fun p => decide (p.2 = s))
        = (CryptoBot.scored db).filter (fun p => decide (p.2 = s)) :=
      List.filter_eq_self.mpr (fun a ha => (List.mem_filter.mp ha).2)
    have hsub2 : List.Sublist ((CryptoBot.scored db).filter (fun p => decide (p.2 = s)))
        (((CryptoBot.scored db).mergeSort CryptoBot.sustLE).filter (fun p => decide (p.2 = s))) := by
      rw [← hself]
      exact List.Sublist.filter _ hsubl
    have hlen : (((CryptoBot.scored db).mergeSort CryptoBot.sustLE).filter
          (fun p => decide (p.2 = s))).length
        = ((CryptoBot.scored db).filter (fun p => decide (p.2 = s))).length :=
      ((List.mergeSort_perm (CryptoBot.scored db) CryptoBot.sustLE).filter _).length_eq
    exact (List.Sublist.eq_of_length hsub2 hlen.symm).symm

/-- C2 witness: the ranking of the shipped catalog is a permutation of
its scored coin list. -/
theorem c2_witness :
    List.Perm (CryptoBot.get_sustainable_coins exDb) (CryptoBot.scored exDb) :=
  (c2_sustainability_ranking exDb).1

end Cypo
